import Mathlib

/-!
Shallow embedding of the NDI object detector (src/capture_improved.py,
class NDIObjectDetector and function main) together with proofs about its
detection filter, target classification, notification throttle, session
statistics and interactive configuration editing.

Modelling conventions:
* Python floats (confidences, thresholds, timestamps) are rationals.
* Frames are opaque values of an arbitrary type F; the YOLO model is an
  opaque function from a frame to raw boxes (`Option (F → List RawBox)`,
  `none` when no model is loaded).  Drawing on a frame is recorded as a
  list of draw operations instead of mutating pixels.
* Side effects (starting the notification thread, assigning
  last_notification_time, printing diagnostics) are recorded as explicit
  event or message lists.
* `time.time()` calls within one frame are modelled as a single instant
  `now` passed to `process_frame`.
* Console prompts (`input()`) are modelled by inductive types describing
  the possible outcomes: cancelled (EOFError / KeyboardInterrupt), a
  returned line, and for the confidence prompt the result of `float(...)`
  (a numeric value or a ValueError on a non-numeric string).
* Python's `str.split(',')` is modelled by `py_split_comma`, structural
  recursion over the character list with identical semantics (keeps empty
  pieces, always returns at least one piece).
-/

namespace Capture

/-- Configuration dictionary (default_config keys, load_config lines 25-53).
The Python key "class" elsewhere is spelled `cls` because `class` is a Lean
keyword. -/
structure Config where
  model_path : String
  confidence_threshold : ℚ
  target_classes : List String
  video_source : Int
  ndi_sources : List String
  display_size : Int × Int
  show_all_detections : Bool
  save_detections : Bool
  output_file : String
  deriving DecidableEq

/-- The default configuration built in load_config (lines 27-37). -/
def default_config : Config :=
  { model_path := "yolov8n.pt",
    confidence_threshold := 1/2,
    target_classes := ["person"],
    video_source := -1,
    ndi_sources := [],
    display_size := (1280, 720),
    show_all_detections := false,
    save_detections := false,
    output_file := "detections.json" }

/-- A parsed configuration file: each key may be present or missing
(missing keys are merged from the defaults, lines 43-46). -/
structure PartialConfig where
  model_path : Option String := none
  confidence_threshold : Option ℚ := none
  target_classes : Option (List String) := none
  video_source : Option Int := none
  ndi_sources : Option (List String) := none
  display_size : Option (Int × Int) := none
  show_all_detections : Option Bool := none
  save_detections : Option Bool := none
  output_file : Option String := none

/-- The three ways the configuration file can present itself to
load_config: missing (os.path.exists false), unreadable or corrupt
(json.load raises), or parsed into a partial dictionary. -/
inductive ConfigFile where
  | absent
  | corrupt
  | parsed (p : PartialConfig)

/-- load_config (lines 25-53): absent file means defaults (also saved back,
a side effect not modelled); a corrupt file means defaults after an error
message; a parsed file is merged with the defaults key by key.  No value,
in particular confidence_threshold, is validated. -/
def load_config : ConfigFile → Config
  | ConfigFile.absent => default_config
  | ConfigFile.corrupt => default_config
  | ConfigFile.parsed p =>
    { model_path := p.model_path.getD default_config.model_path,
      confidence_threshold :=
        p.confidence_threshold.getD default_config.confidence_threshold,
      target_classes := p.target_classes.getD default_config.target_classes,
      video_source := p.video_source.getD default_config.video_source,
      ndi_sources := p.ndi_sources.getD default_config.ndi_sources,
      display_size := p.display_size.getD default_config.display_size,
      show_all_detections :=
        p.show_all_detections.getD default_config.show_all_detections,
      save_detections := p.save_detections.getD default_config.save_detections,
      output_file := p.output_file.getD default_config.output_file }

/-- Model of Python's s.split(',') on the character list: splits at every
comma and keeps empty pieces, so the result always has at least one piece. -/
def py_split_comma_chars : List Char → List (List Char)
  | [] => [[]]
  | c :: cs =>
    if c = ',' then [] :: py_split_comma_chars cs
    else
      match py_split_comma_chars cs with
      | [] => [[c]]
      | g :: gs => (c :: g) :: gs

/-- Model of Python's s.split(','). -/
def py_split_comma (s : String) : List String :=
  (py_split_comma_chars s.data).map (fun cs => String.mk cs)

/-- Model of Python's s.strip(): drop whitespace from both ends.  (Python
also strips some exotic Unicode whitespace; the inputs of interest are
ASCII.) -/
def py_strip (s : String) : String :=
  String.mk
    (((s.data.dropWhile Char.isWhitespace).reverse.dropWhile
        Char.isWhitespace).reverse)

/-- Model of Python's s.lower(), character by character.  (Python also
lowercases non-ASCII letters; the class names of interest are ASCII.) -/
def py_lower (s : String) : String := String.mk (s.data.map Char.toLower)

/-- Command line arguments after argparse (lines 405-412); each optional
flag is `none` when not given. -/
structure Args where
  config : String
  model : Option String
  source : Option Int
  confidence : Option ℚ
  targets : Option String

/-- The CLI override block of main (lines 417-424).  Python truthiness:
`if args.model:` and `if args.targets:` skip empty strings, while source
and confidence use `is not None`.  The confidence override is applied with
no range check. -/
def apply_cli (cfg : Config) (a : Args) : Config :=
  let c1 := match a.model with
    | some m => if m = "" then cfg else { cfg with model_path := m }
    | none => cfg
  let c2 := match a.source with
    | some v => { c1 with video_source := v }
    | none => c1
  let c3 := match a.confidence with
    | some q => { c2 with confidence_threshold := q }
    | none => c2
  match a.targets with
  | some ts =>
    if ts = "" then c3
    else
      { c3 with target_classes :=
          (py_split_comma ts).map (fun t => py_lower (py_strip t)) }
  | none => c3

/-- A raw model output box: class id, confidence, xyxy coordinates
(lines 158-165). -/
structure RawBox where
  cls_id : ℕ
  conf : ℚ
  xyxy : Int × Int × Int × Int
  deriving DecidableEq

/-- The detection record built at lines 167-172; `cls` is the lowercased
class name stored under the Python key "class". -/
structure Detection where
  cls : String
  confidence : ℚ
  bbox : Int × Int × Int × Int
  timestamp : ℚ
  deriving DecidableEq

/-- The detection_stats dictionary (line 19). -/
structure SessionStats where
  total_detections : ℕ
  target_detections : ℕ
  deriving DecidableEq

/-- Observable events of the notification path: starting the
show_notification thread (line 182) and assigning
last_notification_time (line 183). -/
inductive NotifyEvent where
  | dispatch : NotifyEvent
  | setLast : ℚ → NotifyEvent
  deriving DecidableEq

/-- Result of the per-detection notification block: whether the throttled
branch fired, the events it performed in program order, and the value of
last_notification_time afterwards. -/
structure NotifyResult where
  fired : Bool
  events : List NotifyEvent
  last : ℚ
  deriving DecidableEq

/-- Lines 178-183 of process_frame: a notification fires only for a
detection whose lowercased class name is "person" that is also a target
match, and only when now - last ≥ cooldown.  On fire the code first calls
show_notification (starting the dispatch thread) and then assigns
last_notification_time = now. -/
def maybe_notify (cooldown : ℚ) (cls_name : String) (is_target : Bool)
    (now last : ℚ) : NotifyResult :=
  if cls_name = "person" ∧ is_target = true then
    if cooldown ≤ now - last then
      { fired := true,
        events := [NotifyEvent.dispatch, NotifyEvent.setLast now],
        last := now }
    else { fired := false, events := [], last := last }
  else { fired := false, events := [], last := last }

/-- Times at which the notifier fires over a sequence of detections, each
given as (lowercased class name, is_target, detection time), threading
last_notification_time exactly as the mutable field is threaded. -/
def notify_fire_times (cooldown : ℚ) : ℚ → List (String × Bool × ℚ) → List ℚ
  | _, [] => []
  | last, q :: rest =>
    let r := maybe_notify cooldown q.1 q.2.1 q.2.2 last
    if r.fired then q.2.2 :: notify_fire_times cooldown r.last rest
    else notify_fire_times cooldown r.last rest

/-- show_notification's background body (lines 309-321): any failure to
create the message box is caught and turned into a printed log line, so
nothing propagates; the result is the list of log messages. -/
def show_notification (surface_ok : Bool) : List String :=
  if surface_ok then [] else ["Error showing notification"]

/-- Drawing operations performed on a frame (lines 186-192): a rectangle
whose color encodes the target flag, and a label carrying the class name,
the confidence and whether the TARGET suffix is present. -/
inductive DrawOp where
  | rectangle (coords : Int × Int × Int × Int) (is_target : Bool)
  | text (cls_name : String) (conf : ℚ) (is_target : Bool)
  deriving DecidableEq

/-- The mutable state of an NDIObjectDetector relevant to detection
(fields set in __init__, lines 13-23), over an opaque frame type F. -/
structure DetectorState (F : Type) where
  model : Option (F → List RawBox)
  class_names : ℕ → String
  config : Config
  detection_stats : SessionStats
  paused : Bool
  show_help : Bool
  last_notification_time : ℚ
  notification_cooldown : ℚ

/-- The state right after __init__ (lines 13-23): no model, empty class
name table (modelled as the everywhere-empty function), config from
load_config, zero stats, running, help shown, last notification at 0,
cooldown 5 seconds. -/
def initial_state (F : Type) (file : ConfigFile) : DetectorState F :=
  { model := none,
    class_names := fun _ => "",
    config := load_config file,
    detection_stats := { total_detections := 0, target_detections := 0 },
    paused := false,
    show_help := true,
    last_notification_time := 0,
    notification_cooldown := 5 }

/-- Line 176: the target test used inside process_frame, applied to the
already-lowercased class name (Python: cls_name in [tc.lower() for tc in
self.config["target_classes"]]). -/
def process_is_target (cfg : Config) (cls_name : String) : Bool :=
  (cfg.target_classes.map (fun tc => py_lower tc)).contains cls_name

/-- Line 373: the target test used for stats accounting in run (Python:
d["class"] in [tc.lower() for tc in self.config["target_classes"]]). -/
def stats_is_target (cfg : Config) (d : Detection) : Bool :=
  (cfg.target_classes.map (fun tc => py_lower tc)).contains d.cls

/-- The detection record built for one qualifying box (lines 167-172). -/
def mk_detection (names : ℕ → String) (now : ℚ) (b : RawBox) : Detection :=
  { cls := py_lower (names b.cls_id),
    confidence := b.conf,
    bbox := b.xyxy,
    timestamp := now }

/-- Accumulated effects of the box loop of process_frame. -/
structure BoxesResult where
  detections : List Detection
  events : List NotifyEvent
  draws : List DrawOp
  last : ℚ
  deriving DecidableEq

/-- The for loop over results.boxes (lines 158-192): boxes below the
confidence threshold are skipped entirely (strict `conf >=` test with the
equal case included); qualifying boxes append a detection, may notify, and
may draw. -/
def process_boxes (names : ℕ → String) (cfg : Config) (cooldown now : ℚ) :
    List RawBox → ℚ → BoxesResult
  | [], last => { detections := [], events := [], draws := [], last := last }
  | b :: bs, last =>
    let cls_name := py_lower (names b.cls_id)
    if cfg.confidence_threshold ≤ b.conf then
      let d : Detection :=
        { cls := cls_name, confidence := b.conf, bbox := b.xyxy, timestamp := now }
      let tgt := process_is_target cfg cls_name
      let r := maybe_notify cooldown cls_name tgt now last
      let ops : List DrawOp :=
        if tgt || cfg.show_all_detections then
          [DrawOp.rectangle b.xyxy tgt, DrawOp.text cls_name b.conf tgt]
        else []
      let rest := process_boxes names cfg cooldown now bs r.last
      { detections := d :: rest.detections,
        events := r.events ++ rest.events,
        draws := ops ++ rest.draws,
        last := rest.last }
    else
      process_boxes names cfg cooldown now bs last

/-- Everything process_frame produces: the (same) frame, the draw
operations applied to it, the returned detection list, the notification
events, and the updated detector state. -/
structure FrameResult (F : Type) where
  frame : F
  draws : List DrawOp
  detections : List Detection
  events : List NotifyEvent
  state : DetectorState F

/-- process_frame (lines 150-194): with no model loaded it returns the
frame and an empty detection list untouched (lines 152-153); otherwise it
runs the model and the box loop, updating only last_notification_time. -/
def process_frame {F : Type} (s : DetectorState F) (frame : F) (now : ℚ) :
    FrameResult F :=
  match s.model with
  | none =>
    { frame := frame, draws := [], detections := [], events := [], state := s }
  | some m =>
    let r := process_boxes s.class_names s.config s.notification_cooldown now
      (m frame) s.last_notification_time
    { frame := frame,
      draws := r.draws,
      detections := r.detections,
      events := r.events,
      state := { s with last_notification_time := r.last } }

/-- Outcome of the confidence prompt (lines 270-284): input() can be
cancelled (EOFError / KeyboardInterrupt), return an empty line after
strip, a line float() parses to a number, or a line float() rejects
(ValueError). -/
inductive ConfInput where
  | cancelled
  | empty
  | numeric (q : ℚ)
  | malformed
  deriving DecidableEq

/-- change_confidence (lines 264-286): only a numeric value inside
[0, 1] replaces the threshold; every other outcome keeps the previous
value and prints a diagnostic.  The trailing banner printed on every path
(line 286) is omitted so the message list holds just the per-case
diagnostic. -/
def change_confidence (cfg : Config) (inp : ConfInput) : Config × List String :=
  match inp with
  | ConfInput.cancelled =>
    (cfg, ["Input cancelled, keeping current confidence threshold"])
  | ConfInput.empty => (cfg, ["Keeping current confidence threshold"])
  | ConfInput.malformed =>
    (cfg, ["Invalid input, keeping current confidence threshold"])
  | ConfInput.numeric q =>
    if 0 ≤ q ∧ q ≤ 1 then
      ({ cfg with confidence_threshold := q }, ["Confidence threshold set"])
    else (cfg, ["Confidence must be between 0.0 and 1.0"])

/-- Outcome of the target prompt (lines 295-303): cancelled or a returned
line. -/
inductive TargetInput where
  | cancelled
  | line (s : String)
  deriving DecidableEq

/-- change_target (lines 288-305): a line whose strip is non-empty
replaces target_classes with the comma-split, strip-lowered entries;
an empty line or a cancelled prompt keeps the previous set. -/
def change_target (cfg : Config) (inp : TargetInput) : Config :=
  match inp with
  | TargetInput.cancelled => cfg
  | TargetInput.line s =>
    let new_targets := py_strip s
    if new_targets = "" then cfg
    else
      { cfg with target_classes :=
          (py_split_comma new_targets).map (fun t => py_lower (py_strip t)) }

/-- One keyboard symbol as dispatched by handle_keyboard_input
(lines 246-262); the c and t symbols carry the outcome of their console
prompt, and key_other covers every unrecognized code (including the
no-key value of waitKey). -/
inductive KeyCmd where
  | key_q
  | key_space
  | key_h
  | key_c (inp : ConfInput)
  | key_t (inp : TargetInput)
  | key_s
  | key_other

/-- handle_keyboard_input (lines 246-262): returns the updated state and
whether the loop should continue (false only for q).  The s symbol only
performs file I/O (save_config), leaving the state unchanged. -/
def handle_keyboard_input {F : Type} (s : DetectorState F) (k : KeyCmd) :
    DetectorState F × Bool :=
  match k with
  | KeyCmd.key_q => (s, false)
  | KeyCmd.key_space => ({ s with paused := !s.paused }, true)
  | KeyCmd.key_h => ({ s with show_help := !s.show_help }, true)
  | KeyCmd.key_c inp => ({ s with config := (change_confidence s.config inp).1 }, true)
  | KeyCmd.key_t inp => ({ s with config := change_target s.config inp }, true)
  | KeyCmd.key_s => (s, true)
  | KeyCmd.key_other => (s, true)

/-- Inputs consumed by one iteration of the main loop: the frame read from
the capture device, the current time, and the key returned by waitKey. -/
structure TickIn (F : Type) where
  frame : F
  now : ℚ
  key : KeyCmd

/-- One iteration of the run loop (lines 361-394): when not paused,
process the frame and add len(detections) to total_detections and the
number of detections passing the line-373 target test to
target_detections; when paused, only drain the frame; in both cases the
key is handled last. -/
def tick {F : Type} (s : DetectorState F) (i : TickIn F) :
    DetectorState F × Bool :=
  let s1 :=
    if s.paused then s
    else
      let r := process_frame s i.frame i.now
      let st := r.state
      let target_hits := r.detections.filter (fun d => stats_is_target st.config d)
      { st with detection_stats :=
          { total_detections :=
              st.detection_stats.total_detections + r.detections.length,
            target_detections :=
              st.detection_stats.target_detections + target_hits.length } }
  handle_keyboard_input s1 i.key

/-- The run loop over a list of tick inputs, stopping early when a tick
asks to quit. -/
def session {F : Type} (s : DetectorState F) : List (TickIn F) → DetectorState F
  | [] => s
  | i :: rest =>
    if (tick s i).2 then session (tick s i).1 rest else (tick s i).1

/-- Concrete class-name table used by example states. -/
def demo_names : ℕ → String := fun i => if i = 0 then "person" else "dog"

/-- Concrete opaque model used by example states: every frame yields one
confident person box and one low-confidence dog box. -/
def demo_model : ℕ → List RawBox :=
  fun _ => [{ cls_id := 0, conf := 3/4, xyxy := (0, 0, 10, 10) },
            { cls_id := 1, conf := 1/4, xyxy := (0, 0, 5, 5) }]

/-- Example state: freshly initialized detector with the demo model and
class names loaded. -/
def demo_state : DetectorState ℕ :=
  { initial_state ℕ ConfigFile.absent with
      model := some demo_model, class_names := demo_names }

/-- Example state with no model loaded. -/
def no_model_state : DetectorState ℕ := initial_state ℕ ConfigFile.absent

/-! Helper lemmas shared by the claim theorems. -/

/-- The throttled branch of lines 179-183 is taken exactly for a person
detection that is a target match seen at least cooldown after the last
fire. -/
lemma maybe_notify_fired_iff (cooldown : ℚ) (c : String) (g : Bool) (now last : ℚ) :
    (maybe_notify cooldown c g now last).fired = true ↔
      (c = "person" ∧ g = true ∧ cooldown ≤ now - last) := by
  unfold maybe_notify
  split_ifs with hq hcd <;> simp_all

/-- When the branch does not fire, last_notification_time is unchanged. -/
lemma maybe_notify_not_fired (cooldown : ℚ) (c : String) (g : Bool) (now last : ℚ)
    (h : (maybe_notify cooldown c g now last).fired = false) :
    (maybe_notify cooldown c g now last).last = last := by
  unfold maybe_notify at *
  split_ifs at h ⊢ <;> simp_all

/-- When the branch fires, last_notification_time becomes now. -/
lemma maybe_notify_fired_last (cooldown : ℚ) (c : String) (g : Bool) (now last : ℚ)
    (h : (maybe_notify cooldown c g now last).fired = true) :
    (maybe_notify cooldown c g now last).last = now := by
  unfold maybe_notify at *
  split_ifs at h ⊢ <;> simp_all

/-- Prepending the initial timestamp, successive fire times always climb by
at least the cooldown. -/
lemma notify_chain (cooldown : ℚ) :
    ∀ (qs : List (String × Bool × ℚ)) (l : ℚ),
      List.Chain' (fun a b => cooldown ≤ b - a)
        (l :: notify_fire_times cooldown l qs)
  | [], l => by simp [notify_fire_times]
  | q :: rest, l => by
    have ih := notify_chain cooldown rest
    unfold notify_fire_times
    by_cases hf : (maybe_notify cooldown q.1 q.2.1 q.2.2 l).fired = true
    · have hlast := maybe_notify_fired_last cooldown q.1 q.2.1 q.2.2 l hf
      have hcd : cooldown ≤ q.2.2 - l :=
        ((maybe_notify_fired_iff cooldown q.1 q.2.1 q.2.2 l).1 hf).2.2
      simp only [hf, if_true, hlast]
      exact List.chain'_cons.2 ⟨hcd, ih q.2.2⟩
    · have hf' : (maybe_notify cooldown q.1 q.2.1 q.2.2 l).fired = false := by
        simpa using hf
      have hlast := maybe_notify_not_fired cooldown q.1 q.2.1 q.2.2 l hf'
      simp only [hf', if_false, hlast]
      exact ih l

/-- Python's split never returns an empty list of pieces. -/
lemma py_split_comma_chars_ne_nil : ∀ cs : List Char, py_split_comma_chars cs ≠ []
  | [] => by simp [py_split_comma_chars]
  | c :: cs => by
    unfold py_split_comma_chars
    split_ifs
    · simp
    · cases h : py_split_comma_chars cs <;> simp

/-- The detections process_frame returns are exactly the boxes at or above
the confidence threshold, in order, turned into detection records. -/
lemma process_boxes_detections (names : ℕ → String) (cfg : Config)
    (cooldown now : ℚ) :
    ∀ (bs : List RawBox) (last : ℚ),
      (process_boxes names cfg cooldown now bs last).detections =
        (bs.filter (fun b => cfg.confidence_threshold ≤ b.conf)).map
          (mk_detection names now)
  | [], last => by simp [process_boxes]
  | b :: bs, last => by
    have ih := process_boxes_detections names cfg cooldown now bs
    unfold process_boxes
    by_cases hc : cfg.confidence_threshold ≤ b.conf
    · simp [hc, ih, mk_detection]
    · simp [hc, ih]

/-- process_frame never touches the stats or the configuration; only
last_notification_time can change. -/
lemma process_frame_preserves {F : Type} (s : DetectorState F) (frame : F)
    (now : ℚ) :
    (process_frame s frame now).state.detection_stats = s.detection_stats ∧
    (process_frame s frame now).state.config = s.config ∧
    (process_frame s frame now).state.paused = s.paused := by
  unfold process_frame
  cases s.model <;> simp

/-- Keyboard handling never touches the detection stats. -/
lemma handle_keyboard_stats {F : Type} (s : DetectorState F) (k : KeyCmd) :
    ((handle_keyboard_input s k).1).detection_stats = s.detection_stats := by
  cases k <;> rfl

/-- Each tick adds a ≥ 0 to total_detections and b ≤ a to
target_detections. -/
lemma tick_stats_shape {F : Type} (s : DetectorState F) (i : TickIn F) :
    ∃ a b : ℕ, b ≤ a ∧
      (tick s i).1.detection_stats.total_detections =
        s.detection_stats.total_detections + a ∧
      (tick s i).1.detection_stats.target_detections =
        s.detection_stats.target_detections + b := by
  unfold tick
  by_cases hp : s.paused
  · refine ⟨0, 0, le_refl 0, ?_, ?_⟩ <;>
      simp [hp, handle_keyboard_stats]
  · have hpf := process_frame_preserves s i.frame i.now
    refine ⟨(process_frame s i.frame i.now).detections.length,
      ((process_frame s i.frame i.now).detections.filter
        (fun d => stats_is_target (process_frame s i.frame i.now).state.config d)).length,
      List.length_filter_le _ _, ?_, ?_⟩ <;>
      simp [hp, handle_keyboard_stats, hpf.1]

/-- With a loaded model, the returned detections are the detection records
of exactly the boxes whose confidence reaches the threshold. -/
lemma process_frame_detections {F : Type} (s : DetectorState F) (frame : F)
    (now : ℚ) (m : F → List RawBox) (hm : s.model = some m) :
    (process_frame s frame now).detections =
      ((m frame).filter (fun b => s.config.confidence_threshold ≤ b.conf)).map
        (mk_detection s.class_names now) := by
  unfold process_frame
  rw [hm]
  exact process_boxes_detections s.class_names s.config s.notification_cooldown
    now (m frame) s.last_notification_time

/-- C3: for a threshold in [0, 1], a raw detection enters the filtered
detection list exactly when its confidence is at least the threshold; in
particular a confidence exactly equal to the threshold is included. -/
theorem threshold_filter_inclusive {F : Type} (s : DetectorState F) (frame : F)
    (now : ℚ) (m : F → List RawBox) (hm : s.model = some m)
    (h0 : 0 ≤ s.config.confidence_threshold)
    (h1 : s.config.confidence_threshold ≤ 1) :
    (∀ b ∈ m frame,
        (mk_detection s.class_names now b ∈ (process_frame s frame now).detections ↔
          s.config.confidence_threshold ≤ b.conf)) ∧
    (∀ b ∈ m frame, b.conf = s.config.confidence_threshold →
        mk_detection s.class_names now b ∈ (process_frame s frame now).detections) := by
  have hd := process_frame_detections s frame now m hm
  have hiff : ∀ b ∈ m frame,
      (mk_detection s.class_names now b ∈ (process_frame s frame now).detections ↔
        s.config.confidence_threshold ≤ b.conf) := by
    intro b hb
    rw [hd]
    constructor
    · intro hmem
      rcases List.mem_map.1 hmem with ⟨a, ha, hma⟩
      rcases List.mem_filter.1 ha with ⟨_, hpa⟩
      have hconf : a.conf = b.conf := congrArg Detection.confidence hma
      rw [← hconf]
      exact of_decide_eq_true hpa
    · intro hc
      exact List.mem_map.2 ⟨b, List.mem_filter.2 ⟨hb, decide_eq_true hc⟩, rfl⟩
  exact ⟨hiff, fun b hb he => (hiff b hb).2 (le_of_eq he.symm)⟩

theorem threshold_filter_inclusive_witness :
    mk_detection demo_names 100 { cls_id := 0, conf := 3/4, xyxy := (0, 0, 10, 10) } ∈
      (process_frame demo_state 0 100).detections := by
  have h0 : (0 : ℚ) ≤ demo_state.config.confidence_threshold := by
    norm_num [demo_state, initial_state, load_config, default_config]
  have h1 : demo_state.config.confidence_threshold ≤ 1 := by
    norm_num [demo_state, initial_state, load_config, default_config]
  have h := (threshold_filter_inclusive demo_state 0 100 demo_model rfl h0 h1).1
    { cls_id := 0, conf := 3/4, xyxy := (0, 0, 10, 10) } (by simp [demo_model])
  exact h.mpr
    (by norm_num [demo_state, initial_state, load_config, default_config])

/-- C4: a detection is classified a target match exactly when its
lowercased label is among the lowercased target classes; with an empty
target set nothing ever matches, yet a running tick still adds every
above-threshold detection to total_detections. -/
theorem target_classification_and_totals {F : Type} (s : DetectorState F)
    (i : TickIn F) (m : F → List RawBox) (hm : s.model = some m)
    (hp : s.paused = false) :
    (∀ (cfg : Config) (L : String),
        process_is_target cfg (py_lower L) = true ↔
          py_lower L ∈ cfg.target_classes.map (fun x => py_lower x)) ∧
    (∀ (cfg : Config) (L : String), cfg.target_classes = [] →
        process_is_target cfg L = false) ∧
    (tick s i).1.detection_stats.total_detections =
      s.detection_stats.total_detections +
        ((m i.frame).filter
          (fun b => s.config.confidence_threshold ≤ b.conf)).length := by
  refine ⟨?_, ?_, ?_⟩
  · intro cfg L
    simp [process_is_target, List.contains, List.elem_iff]
  · intro cfg L h
    simp [process_is_target, h]
  · have hd := process_frame_detections s i.frame i.now m hm
    have hpf := process_frame_preserves s i.frame i.now
    unfold tick
    rw [handle_keyboard_stats]
    simp [hp, hd, hpf.1]

theorem target_classification_and_totals_witness :
    (tick demo_state { frame := 0, now := 100, key := KeyCmd.key_other
      }).1.detection_stats.total_detections =
      demo_state.detection_stats.total_detections +
        ((demo_model 0).filter
          (fun b => demo_state.config.confidence_threshold ≤ b.conf)).length :=
  (target_classification_and_totals demo_state
    { frame := 0, now := 100, key := KeyCmd.key_other } demo_model rfl rfl).2.2

/-- C5: across any sequence of ticks, total_detections and
target_detections never decrease, and target_detections stays at or below
total_detections whenever it started that way. -/
theorem session_stats_monotone {F : Type} (s : DetectorState F)
    (ins : List (TickIn F))
    (h : s.detection_stats.target_detections ≤
      s.detection_stats.total_detections) :
    (session s ins).detection_stats.target_detections ≤
      (session s ins).detection_stats.total_detections ∧
    s.detection_stats.total_detections ≤
      (session s ins).detection_stats.total_detections ∧
    s.detection_stats.target_detections ≤
      (session s ins).detection_stats.target_detections := by
  induction ins generalizing s with
  | nil => exact ⟨h, le_refl _, le_refl _⟩
  | cons i rest ih =>
    obtain ⟨a, b, hba, hta, htb⟩ := tick_stats_shape s i
    by_cases hc : (tick s i).2 = true
    · have hrw : session s (i :: rest) = session (tick s i).1 rest := by
        simp [session, hc]
      obtain ⟨h1, h2, h3⟩ := ih (tick s i).1 (by omega)
      rw [hrw]
      exact ⟨h1, by omega, by omega⟩
    · have hc' : (tick s i).2 = false := by simpa using hc
      have hrw : session s (i :: rest) = (tick s i).1 := by
        simp [session, hc']
      rw [hrw]
      exact ⟨by omega, by omega, by omega⟩

theorem session_stats_monotone_witness :
    (session demo_state [{ frame := 0, now := 100, key := KeyCmd.key_other
      }]).detection_stats.target_detections ≤
      (session demo_state [{ frame := 0, now := 100, key := KeyCmd.key_other
        }]).detection_stats.total_detections :=
  (session_stats_monotone demo_state
    [{ frame := 0, now := 100, key := KeyCmd.key_other }] (by decide)).1

/-- C6 counterexample: the claim fails at the CLI-override point of the
lifecycle.  Loading defaults and then applying a --confidence 3/2 override
(Python: --confidence 1.5) leaves the configuration with a threshold above
1, because main (lines 421-422) assigns args.confidence with no range
check. -/
theorem confidence_range_cex :
    ¬ ((apply_cli (load_config ConfigFile.absent)
        { config := "detector_config.json", model := none, source := none,
          confidence := some (3/2), targets := none }).confidence_threshold ≤ 1) := by
  norm_num [apply_cli, load_config, default_config]

/-- C6 (amended): the threshold is in [0, 1] after loading defaults
(absent or corrupt file) and after every runtime confidence edit that
started from a threshold in [0, 1]; but a --confidence CLI override is
copied into the configuration unvalidated, so those points of the
lifecycle admit values outside [0, 1] (and likewise file-loaded values,
which load_config merges without checks). -/
theorem confidence_range_amended (cfg : Config) (inp : ConfInput) (q : ℚ)
    (h0 : 0 ≤ cfg.confidence_threshold) (h1 : cfg.confidence_threshold ≤ 1) :
    (0 ≤ (load_config ConfigFile.absent).confidence_threshold ∧
      (load_config ConfigFile.absent).confidence_threshold ≤ 1) ∧
    (0 ≤ (load_config ConfigFile.corrupt).confidence_threshold ∧
      (load_config ConfigFile.corrupt).confidence_threshold ≤ 1) ∧
    (0 ≤ (change_confidence cfg inp).1.confidence_threshold ∧
      (change_confidence cfg inp).1.confidence_threshold ≤ 1) ∧
    (apply_cli cfg
        { config := "detector_config.json", model := none, source := none,
          confidence := some q, targets := none }).confidence_threshold = q := by
  refine ⟨⟨?_, ?_⟩, ⟨?_, ?_⟩, ?_, ?_⟩
  · norm_num [load_config, default_config]
  · norm_num [load_config, default_config]
  · norm_num [load_config, default_config]
  · norm_num [load_config, default_config]
  · cases inp with
    | cancelled => exact ⟨h0, h1⟩
    | empty => exact ⟨h0, h1⟩
    | malformed => exact ⟨h0, h1⟩
    | numeric q' =>
      by_cases hq : 0 ≤ q' ∧ q' ≤ 1
      · simpa [change_confidence, hq] using hq
      · simpa [change_confidence, hq] using ⟨h0, h1⟩
  · simp [apply_cli]

theorem confidence_range_amended_witness :
    0 ≤ (change_confidence default_config
        (ConfInput.numeric 2)).1.confidence_threshold ∧
      (change_confidence default_config
        (ConfInput.numeric 2)).1.confidence_threshold ≤ 1 :=
  (confidence_range_amended default_config (ConfInput.numeric 2) 3
    (by norm_num [default_config]) (by norm_num [default_config])).2.2.1

/-- C7: the target test of process_frame (line 176) and the target test of
the stats accounting in run (line 373) are the same predicate, and within
one running tick the amount added to target_detections counts exactly the
detections the process_frame-side test classifies as targets under the
same configuration. -/
theorem target_test_agreement {F : Type} (s : DetectorState F) (i : TickIn F)
    (m : F → List RawBox) (hm : s.model = some m) (hp : s.paused = false) :
    (∀ (cfg : Config) (d : Detection),
        stats_is_target cfg d = process_is_target cfg d.cls) ∧
    (tick s i).1.detection_stats.target_detections =
      s.detection_stats.target_detections +
        ((process_frame s i.frame i.now).detections.filter
          (fun d => process_is_target s.config d.cls)).length := by
  refine ⟨fun cfg d => rfl, ?_⟩
  have hpf := process_frame_preserves s i.frame i.now
  unfold tick
  rw [handle_keyboard_stats]
  simp [hp, hpf.1, hpf.2.1, stats_is_target, process_is_target]

theorem target_test_agreement_witness :
    (tick demo_state { frame := 0, now := 100, key := KeyCmd.key_other
      }).1.detection_stats.target_detections =
      demo_state.detection_stats.target_detections +
        ((process_frame demo_state 0 100).detections.filter
          (fun d => process_is_target demo_state.config d.cls)).length :=
  (target_test_agreement demo_state
    { frame := 0, now := 100, key := KeyCmd.key_other } demo_model rfl rfl).2

/-- C8: an invalid confidence edit (cancelled prompt, non-numeric string,
or a number outside [0, 1]) keeps the prior threshold, emits a diagnostic
message as its only surfaced effect, raises nothing to the caller (the
handler returns normally), and the loop keeps running. -/
theorem invalid_confidence_input_safe {F : Type} (s : DetectorState F)
    (inp : ConfInput)
    (hbad : inp = ConfInput.cancelled ∨ inp = ConfInput.malformed ∨
      ∃ q, inp = ConfInput.numeric q ∧ ¬ (0 ≤ q ∧ q ≤ 1)) :
    (change_confidence s.config inp).1 = s.config ∧
    (change_confidence s.config inp).2 ≠ [] ∧
    handle_keyboard_input s (KeyCmd.key_c inp) = (s, true) := by
  have hcfg : (change_confidence s.config inp).1 = s.config := by
    rcases hbad with h | h | ⟨q, hq, hr⟩
    · simp [h, change_confidence]
    · simp [h, change_confidence]
    · simp [hq, change_confidence, hr]
  have hmsg : (change_confidence s.config inp).2 ≠ [] := by
    rcases hbad with h | h | ⟨q, hq, hr⟩
    · simp [h, change_confidence]
    · simp [h, change_confidence]
    · simp [hq, change_confidence, hr]
  refine ⟨hcfg, hmsg, ?_⟩
  show ({ s with config := (change_confidence s.config inp).1 }, true) = (s, true)
  rw [hcfg]

theorem invalid_confidence_input_safe_witness :
    handle_keyboard_input demo_state (KeyCmd.key_c (ConfInput.numeric (3/2))) =
      (demo_state, true) ∧
    (change_confidence demo_state.config (ConfInput.numeric (3/2))).1 =
      demo_state.config := by
  have h := invalid_confidence_input_safe demo_state (ConfInput.numeric (3/2))
    (Or.inr (Or.inr ⟨3/2, rfl, by norm_num⟩))
  exact ⟨h.2.2, h.1⟩

/-- C9: a target edit whose stripped input is non-empty replaces the
target class set with the comma-split entries, each stripped and
lowercased, and that replacement list is never empty; a stripped-empty
input leaves the set unchanged. -/
theorem change_target_spec (cfg : Config) (s : String) :
    (py_strip s ≠ "" →
      change_target cfg (TargetInput.line s) =
        { cfg with target_classes :=
            (py_split_comma (py_strip s)).map (fun t => py_lower (py_strip t)) } ∧
      (py_split_comma (py_strip s)).map (fun t => py_lower (py_strip t)) ≠ []) ∧
    (py_strip s = "" → change_target cfg (TargetInput.line s) = cfg) := by
  constructor
  · intro h
    refine ⟨by simp [change_target, h], ?_⟩
    simpa [py_split_comma, List.map_eq_nil] using
      py_split_comma_chars_ne_nil (py_strip s).data
  · intro h
    simp [change_target, h]

theorem change_target_spec_witness :
    change_target default_config (TargetInput.line "Cat, DOG") =
      { default_config with target_classes := ["cat", "dog"] } := by
  have h := (change_target_spec default_config "Cat, DOG").1 (by decide)
  have hlist : (py_split_comma (py_strip "Cat, DOG")).map
      (fun t => py_lower (py_strip t)) = ["cat", "dog"] := by decide
  rw [h.1, hlist]

/-- C10: with no model loaded, process_frame returns the input frame with
no draw operations, an empty detection list, no notification events, and
the detector state exactly as it was. -/
theorem no_model_identity {F : Type} (s : DetectorState F) (frame : F) (now : ℚ)
    (hm : s.model = none) :
    process_frame s frame now =
      { frame := frame, draws := [], detections := [], events := [], state := s } := by
  unfold process_frame
  rw [hm]

theorem no_model_identity_witness :
    process_frame no_model_state 7 100 =
      { frame := 7, draws := [], detections := [], events := [],
        state := no_model_state } :=
  no_model_identity no_model_state 7 100 rfl

/-- C1: over any sequence of qualifying detections the notifier fires at
time now exactly when now - last_fired ≥ cooldown (and the detection is a
person target match); consecutive fire times are never closer than the
cooldown measured from the previous fire; and starting ready to fire, two
qualifying detections at t and t + C - ε produce exactly one fire while
two at t and t + C produce two fires. -/
theorem notifier_cooldown_exact (C l0 t ε : ℚ) (hε : 0 < ε)
    (hready : C ≤ t - l0) :
    (∀ (c : String) (g : Bool) (now last : ℚ),
        (maybe_notify C c g now last).fired = true ↔
          (c = "person" ∧ g = true ∧ C ≤ now - last)) ∧
    (∀ (qs : List (String × Bool × ℚ)) (l : ℚ),
        List.Chain' (fun a b => C ≤ b - a)
          (l :: notify_fire_times C l qs)) ∧
    notify_fire_times C l0
      [("person", true, t), ("person", true, t + C - ε)] = [t] ∧
    notify_fire_times C l0
      [("person", true, t), ("person", true, t + C)] = [t, t + C] := by
  refine ⟨maybe_notify_fired_iff C, notify_chain C, ?_, ?_⟩
  · have hno : ¬ C ≤ t + C - ε - t := by intro h; linarith
    simp [notify_fire_times, maybe_notify, hready, hno]
  · have hyes : C ≤ t + C - t := by linarith
    simp [notify_fire_times, maybe_notify, hready, hyes]

theorem notifier_cooldown_exact_witness :
    notify_fire_times 5 0
      [("person", true, 10), ("person", true, 10 + 5 - 1)] = [10] ∧
    notify_fire_times 5 0
      [("person", true, 10), ("person", true, 10 + 5)] = [10, 10 + 5] := by
  have h := notifier_cooldown_exact 5 0 10 1 (by norm_num) (by norm_num)
  exact ⟨h.2.2.1, h.2.2.2⟩

/-- C2 counterexample: at a concrete fire (cooldown 5, person target hit at
time 10 with last fire at 0) the code's event order is dispatch first and
the timestamp assignment second, not the claimed update-then-dispatch
order (lines 182-183 of the source run show_notification before assigning
last_notification_time). -/
theorem notifier_update_order_cex :
    (maybe_notify 5 "person" true 10 0).fired = true ∧
    (maybe_notify 5 "person" true 10 0).events =
      [NotifyEvent.dispatch, NotifyEvent.setLast 10] ∧
    (maybe_notify 5 "person" true 10 0).events ≠
      [NotifyEvent.setLast 10, NotifyEvent.dispatch] := by
  have h5 : (5 : ℚ) ≤ 10 := by norm_num
  refine ⟨?_, ?_, ?_⟩ <;> simp [maybe_notify, h5]

/-- C2 (amended): on every fire the notifier starts the asynchronous
dispatch first and then sets last_fired = now, both inside the same
synchronous step of the tick; the resulting throttle timestamp is now
regardless of how the dispatch turns out, since show_notification catches
any presentation failure and only logs it. -/
theorem notifier_dispatch_then_update (C : ℚ) (c : String) (g : Bool)
    (now last : ℚ) (hf : (maybe_notify C c g now last).fired = true) :
    (maybe_notify C c g now last).events =
      [NotifyEvent.dispatch, NotifyEvent.setLast now] ∧
    (maybe_notify C c g now last).last = now ∧
    (∀ surface_ok : Bool,
        show_notification surface_ok = [] ∨
        show_notification surface_ok = ["Error showing notification"]) := by
  refine ⟨?_, maybe_notify_fired_last C c g now last hf, ?_⟩
  · unfold maybe_notify at *
    split_ifs at hf ⊢ <;> simp_all
  · intro surface_ok
    cases surface_ok <;> simp [show_notification]

theorem notifier_dispatch_then_update_witness :
    (maybe_notify 5 "person" true 10 0).events =
      [NotifyEvent.dispatch, NotifyEvent.setLast 10] ∧
    (maybe_notify 5 "person" true 10 0).last = 10 := by
  have hf : (maybe_notify 5 "person" true 10 0).fired = true := by
    have h5 : (5 : ℚ) ≤ 10 := by norm_num
    simp [maybe_notify, h5]
  have h := notifier_dispatch_then_update 5 "person" true 10 0 hf
  exact ⟨h.1, h.2.1⟩

end Capture
